import Mathlib

/-!
Verification of the Kerberos ticket-authentication core
(`src/backend/src/auth/kerberos_auth.py`, `src/backend/src/utils/crypto_utils.py`,
`src/backend/src/models/user.py`) against its design specification.

Modelling conventions:
* Byte strings are `List Nat` (each element a byte value 0..255).
* `datetime` values are integer timestamps (`Int`); `timedelta(hours=h)` is
  `h * 3600` seconds.  ISO-8601 timestamp strings are modelled symbolically by
  `IsoStr`: a well-formed one wraps the timestamp it denotes, an ill-formed one
  wraps raw text, and `datetime.fromisoformat` succeeds exactly on the former.
* The external `cryptography` library's Fernet authenticated encryption is
  modelled symbolically (Dolev-Yao style): a `FernetToken` records the key it
  was sealed under, the fresh per-call nonce, and the protected plaintext;
  decryption succeeds exactly when the key matches.  UTF-8 encoding/decoding of
  the plaintext string is folded into the symbolic token.
* `json.dumps`/`json.loads` on the flat ticket dictionaries are modelled by the
  `Plain` type: a ticket-shaped JSON object text carries its `TicketData`
  (fields optional, mirroring dictionary-key presence), and any other text
  fails to load as a ticket dictionary.
* Python exceptions become `Option`: `none` is a raised (or caught) exception.
-/

namespace Kerberos

/-- Symbolic ISO-8601 timestamp string: `ofTime t` is the well-formed encoding of
timestamp `t` produced by `datetime.isoformat`, `invalid s` is any text that
`datetime.fromisoformat` rejects. -/
inductive IsoStr where
  | ofTime (t : Int)
  | invalid (s : String)
deriving DecidableEq, Repr

/-- Model of `datetime.isoformat` on a timestamp. -/
def isoformat (t : Int) : IsoStr := IsoStr.ofTime t

/-- Model of `datetime.fromisoformat`: succeeds exactly on well-formed ISO strings. -/
def fromisoformat : IsoStr → Option Int
  | IsoStr.ofTime t => some t
  | IsoStr.invalid _ => none

/-- The flat ticket dictionary built by `generate_tgt` / `generate_service_ticket`
and recovered by `json.loads`.  Each field is `Option`al because a decrypted
ticket may be any JSON object: `none` means the dictionary key is absent. -/
structure TicketData where
  user_id : Option String
  username : Option String
  service_name : Option String
  issued_at : Option IsoStr
  expires_at : Option IsoStr
  session_key : Option String
  permissions : Option (List String)
deriving DecidableEq, Repr

/-- Symbolic plaintext handed to Fernet encryption: either the `json.dumps` text of
a ticket dictionary, or any other text (including text that is not valid JSON or
whose JSON value is not a dictionary, on which the subsequent dictionary access
raises). -/
inductive Plain where
  | ofTicket (d : TicketData)
  | raw (s : String)
deriving DecidableEq, Repr

/-- Model of `json.loads` composed with reading the result as a ticket dictionary:
succeeds exactly on the `json.dumps` text of a ticket dictionary. -/
def json_loads_ticket : Plain → Option TicketData
  | Plain.ofTicket d => some d
  | Plain.raw _ => none

/-- Model of `json.dumps` on a ticket dictionary. -/
def json_dumps (d : TicketData) : Plain := Plain.ofTicket d

/-- Symbolic Fernet token (external `cryptography.fernet` library, used by
`CryptoUtils.encrypt_data`/`decrypt_data`): authenticated encryption recorded as
the sealing key, the fresh per-call nonce, and the protected plaintext.
Tampered or non-token byte strings never parse as a `FernetToken`. -/
structure FernetToken where
  keyId : Nat
  nonce : Nat
  plain : Plain
deriving DecidableEq, Repr

/-- The process-wide master key derived once by `CryptoUtils._derive_key` from the
configured passphrase and salt. -/
def masterKey : Nat := 0

/-- Model of `CryptoUtils.encrypt_data`: UTF-8 encodes and Fernet-encrypts the
plaintext under the instance key with fresh randomness `nonce`; never fails on
valid input. -/
def encrypt_data (keyId nonce : Nat) (p : Plain) : FernetToken :=
  ⟨keyId, nonce, p⟩

/-- Model of `CryptoUtils.decrypt_data`: Fernet decryption followed by UTF-8
decoding; succeeds exactly when the token was sealed under the same key
(authentication failure raises, modelled as `none`). -/
def decrypt_data (keyId : Nat) (tok : FernetToken) : Option Plain :=
  if tok.keyId = keyId then some tok.plain else none

/-- The opaque ticket string handed to callers: either the base64 text of a
well-formed Fernet token, or garbage text whose base64 decoding / token parsing
fails (covers Scenario D's garbage-base64 strings). -/
inductive TicketStr where
  | ofToken (t : FernetToken)
  | garbage (s : String)
deriving DecidableEq, Repr

/-- Model of `base64.b64encode` on an encrypted token. -/
def b64encode (t : FernetToken) : TicketStr := TicketStr.ofToken t

/-- Model of `base64.b64decode` composed with parsing the bytes as a Fernet token:
fails on garbage strings. -/
def b64decode_token : TicketStr → Option FernetToken
  | TicketStr.ofToken t => some t
  | TicketStr.garbage _ => none

/-! ### PKCS7 padding (`CryptoUtils._pad_data` / `_unpad_data`) -/

/-- Model of `CryptoUtils._pad_data`: appends `16 - len(data) % 16` copies of that
same value as padding bytes. -/
def _pad_data (data : List Nat) : List Nat :=
  let padding_length := 16 - data.length % 16
  data ++ List.replicate padding_length padding_length

/-- Model of `CryptoUtils._unpad_data`: reads the last byte as the padding length
and slices it off (`padded_data[:-padding_length]`) with no validation of the
padding bytes.  `none` models the `IndexError` on empty input; the Python slice
`l[:-0]` is empty, hence the `n = 0` case. -/
def _unpad_data (padded_data : List Nat) : Option (List Nat) :=
  match padded_data.getLast? with
  | none => none
  | some n => some (if n = 0 then [] else padded_data.take (padded_data.length - n))

end Kerberos

namespace Kerberos

/-! ### CryptoUtils: password hashing -/

/-- Symbolic PBKDF2-HMAC output (external `cryptography` library, used by
`CryptoUtils.hash_password`/`verify_password`): the derived bytes are recorded
as the password, salt, iteration count and output length that produced them,
modelling an ideal (collision-free) key-derivation function. -/
structure KdfHash where
  password : String
  salt : List Nat
  iterations : Nat
  length : Nat
deriving DecidableEq, Repr

/-- Model of `PBKDF2HMAC(...).derive(password)` with SHA-256. -/
def pbkdf2_derive (password : String) (salt : List Nat) (iterations length : Nat) :
    KdfHash :=
  ⟨password, salt, iterations, length⟩

/-- Model of `secrets.token_bytes`: `length` cryptographically random bytes,
determined here by the random seed drawn at the call. -/
def token_bytes (seed : Nat) (length : Nat) : List Nat :=
  (List.range length).map (fun i => (seed + i) % 256)

/-- Model of `CryptoUtils.hash_password`: PBKDF2-SHA256, 100000 iterations,
32-byte output; when no salt is supplied a fresh 32-byte random salt (drawn from
`seed`) is generated.  Returns `(hash, salt)`. -/
def hash_password (password : String) (salt : Option (List Nat)) (seed : Nat) :
    KdfHash × List Nat :=
  let s := salt.getD (token_bytes seed 32)
  (pbkdf2_derive password s 100000 32, s)

/-- Model of `CryptoUtils.verify_password`: recomputes the derivation and compares
(`kdf.verify` raises on mismatch, caught and returned as `False`). -/
def verify_password (password : String) (password_hash : KdfHash) (salt : List Nat) :
    Bool :=
  pbkdf2_derive password salt 100000 32 = password_hash

/-! ### User model and bcrypt (`models/user.py`, `_get_user_by_username`) -/

/-- Symbolic bcrypt hash (external `bcrypt` library): records the hashed password
and the salt drawn by `bcrypt.gensalt()`, modelling an ideal hash. -/
structure BcryptHash where
  password : String
  salt : Nat
deriving DecidableEq, Repr

/-- Model of `bcrypt.hashpw(password, gensalt())`. -/
def bcrypt_hashpw (password : String) (salt : Nat) : BcryptHash :=
  ⟨password, salt⟩

/-- Model of `bcrypt.checkpw`. -/
def bcrypt_checkpw (password : String) (h : BcryptHash) : Bool :=
  h.password = password

/-- Model of the `User` record fields used by authentication
(`models/user.py`: `id`, `username`, `password_hash`, `roles`). -/
structure User where
  id : String
  username : String
  password_hash : BcryptHash
  roles : List String
deriving DecidableEq, Repr

/-- Model of `KerberosAuth._verify_password`: `bcrypt.checkpw`, with any
exception caught and returned as `False`. -/
def _verify_password (password : String) (password_hash : BcryptHash) : Bool :=
  bcrypt_checkpw password password_hash

/-- Result of a credential-store lookup: `Except.error` models the lookup raising,
`Except.ok none` an absent user. -/
abbrev LookupResult := Except String (Option User)

/-- Model of `KerberosAuth._get_user_by_username`: the hardcoded mock store with
three principals (salts chosen arbitrarily for the symbolic bcrypt model). -/
def _get_user_by_username (username : String) : LookupResult :=
  if username = "admin" then
    Except.ok (some ⟨"1", "admin", bcrypt_hashpw "admin123" 1, ["admin", "user"]⟩)
  else if username = "user" then
    Except.ok (some ⟨"2", "user", bcrypt_hashpw "user123" 2, ["user"]⟩)
  else if username = "guest" then
    Except.ok (some ⟨"3", "guest", bcrypt_hashpw "guest123" 3, ["guest"]⟩)
  else
    Except.ok none

/-- Model of `KerberosAuth.authenticate_user`, parameterised by the
credential-store lookup (the whole body runs inside `try/except` returning
`None` on any exception, so a raising lookup yields `none`). -/
def authenticate_user (lookup : String → LookupResult) (username password : String) :
    Option User :=
  match lookup username with
  | Except.error _ => none
  | Except.ok none => none
  | Except.ok (some user) =>
      if _verify_password password user.password_hash then some user else none

/-! ### KerberosAuth: ticket issuance and validation -/

/-- Model of `self.tgt_lifetime = timedelta(hours=8)` in seconds. -/
def tgt_lifetime : Int := 8 * 3600

/-- Model of `self.service_ticket_lifetime = timedelta(hours=2)` in seconds. -/
def service_ticket_lifetime : Int := 2 * 3600

/-- The hardcoded permission list assigned by `generate_tgt`
(`'permissions': ['read', 'write', 'execute']`). -/
def default_permissions : List String := ["read", "write", "execute"]

/-- The TGT dictionary built by `generate_tgt` at time `now` with fresh session
key `sk`: no `service_name` key, the hardcoded permission list, and an
8-hour validity window. -/
def tgt_data (now : Int) (sk : String) (user_id username : String) : TicketData :=
  { user_id := some user_id
    username := some username
    service_name := none
    issued_at := some (isoformat now)
    expires_at := some (isoformat (now + tgt_lifetime))
    session_key := some sk
    permissions := some default_permissions }

/-- Model of `KerberosAuth.generate_tgt`: builds the TGT dictionary, JSON-dumps
it, encrypts it under the master key with fresh randomness `nonce`, and
base64-encodes the result. -/
def generate_tgt (now : Int) (sk : String) (nonce : Nat) (user_id username : String) :
    TicketStr :=
  b64encode (encrypt_data masterKey nonce (json_dumps (tgt_data now sk user_id username)))

/-- The shared decode pipeline of `validate_service_ticket`, `_validate_tgt` and
`get_ticket_info`: base64-decode, Fernet-decrypt under the master key, JSON-load
as a ticket dictionary; `none` on any failure. -/
def decode_ticket (t : TicketStr) : Option TicketData :=
  match b64decode_token t with
  | none => none
  | some tok =>
      match decrypt_data masterKey tok with
      | none => none
      | some p => json_loads_ticket p

/-- Model of `KerberosAuth.validate_service_ticket`: decodes the ticket, reads
`ticket_data['expires_at']` (KeyError if absent), parses it
(ValueError if ill-formed) and returns `False` iff `datetime.now() > expires_at`;
every exception is caught and returned as `False`. -/
def validate_service_ticket (now : Int) (service_ticket : TicketStr) : Bool :=
  match decode_ticket service_ticket with
  | none => false
  | some d =>
      match d.expires_at with
      | none => false
      | some iso =>
          match fromisoformat iso with
          | none => false
          | some e => if e < now then false else true

/-- Model of `KerberosAuth._validate_tgt`: same pipeline and expiry check as
`validate_service_ticket`, returning the decoded dictionary on success. -/
def _validate_tgt (now : Int) (tgt : TicketStr) : Option TicketData :=
  match decode_ticket tgt with
  | none => none
  | some d =>
      match d.expires_at with
      | none => none
      | some iso =>
          match fromisoformat iso with
          | none => none
          | some e => if e < now then none else some d

/-- The service-ticket dictionary built by `generate_service_ticket` from a
validated TGT dictionary: copies `user_id`, `username` (raising, hence `none`,
if either key is absent) and `permissions` (defaulting to `[]` via
`tgt_data.get('permissions', [])`), sets the service name, a fresh session key
and a 2-hour validity window. -/
def service_ticket_data (now : Int) (sk : String) (d : TicketData)
    (service_name : String) : Option TicketData :=
  match d.user_id, d.username with
  | some uid, some un =>
      some { user_id := some uid
             username := some un
             service_name := some service_name
             issued_at := some (isoformat now)
             expires_at := some (isoformat (now + service_ticket_lifetime))
             session_key := some sk
             permissions := some (d.permissions.getD []) }
  | _, _ => none

/-- Model of `KerberosAuth.generate_service_ticket`: validates the TGT (raising
`ValueError`, modelled `none`, when invalid), builds the service-ticket
dictionary, encrypts and base64-encodes it. -/
def generate_service_ticket (now : Int) (sk : String) (nonce : Nat)
    (tgt : TicketStr) (service_name : String) : Option TicketStr :=
  match _validate_tgt now tgt with
  | none => none
  | some d =>
      match service_ticket_data now sk d service_name with
      | none => none
      | some sd => some (b64encode (encrypt_data masterKey nonce (json_dumps sd)))

/-- The read-only view returned by `get_ticket_info`. -/
structure TicketInfo where
  username : Option String
  service_name : Option String
  issued_at : Option IsoStr
  expires_at : Option IsoStr
  permissions : List String
deriving DecidableEq, Repr

/-- Model of `KerberosAuth.get_ticket_info`: decodes the ticket with no expiry
check and returns the view built with `dict.get` defaults (`None` for missing
fields, `[]` for missing permissions); `none` exactly on a decode failure. -/
def get_ticket_info (t : TicketStr) : Option TicketInfo :=
  match decode_ticket t with
  | none => none
  | some d =>
      some ⟨d.username, d.service_name, d.issued_at, d.expires_at,
            d.permissions.getD []⟩

/-- The expiry timestamp a ticket carries, when the ticket decodes and its
`expires_at` field is present and parseable; used to state claims about the
expiry check. -/
def ticket_expiry (t : TicketStr) : Option Int :=
  match decode_ticket t with
  | none => none
  | some d =>
      match d.expires_at with
      | none => none
      | some iso => fromisoformat iso

/-! ## Theorems -/

/-- C10: `_pad_data` always returns a byte string whose length is a positive
multiple of 16 and strictly greater than the input length, and `_unpad_data`
inverts it exactly, so correctly padded AES-CBC plaintexts round-trip through
the pad/unpad pair. -/
theorem pad_length_and_unpad_round_trip (d : List Nat) :
    (_pad_data d).length % 16 = 0 ∧ 0 < (_pad_data d).length ∧
    d.length < (_pad_data d).length ∧ _unpad_data (_pad_data d) = some d := by
  have hm : d.length % 16 < 16 := Nat.mod_lt _ (by norm_num)
  have hlen : (_pad_data d).length = d.length + (16 - d.length % 16) := by
    simp [_pad_data]
  refine ⟨by rw [hlen]; omega, by rw [hlen]; omega, by rw [hlen]; omega, ?_⟩
  obtain ⟨m, hm2⟩ : ∃ m, 16 - d.length % 16 = m + 1 := ⟨16 - d.length % 16 - 1, by omega⟩
  have hsplit : _pad_data d =
      (d ++ List.replicate m (16 - d.length % 16)) ++ [16 - d.length % 16] := by
    simp only [_pad_data, hm2, List.replicate_succ' m, List.append_assoc]
  rw [_unpad_data, hsplit, List.getLast?_concat]
  have htk : ((d ++ List.replicate m (16 - d.length % 16)) ++
      [16 - d.length % 16]).length - (16 - d.length % 16) = d.length := by
    simp [List.length_append, List.length_replicate]
    omega
  dsimp only
  rw [if_neg (by omega : ¬ 16 - d.length % 16 = 0), htk, List.append_assoc]
  exact congrArg some (List.take_left d _)

/-- C3 (code bug): `_unpad_data` performs no validation of the padding bytes.
On the inconsistently padded input `[65, 66, 67, 68, 2]` (final byte claims two
padding bytes `2, 2`, but the preceding byte is `68`) it silently truncates and
returns successfully instead of failing with `PaddingError`, contradicting the
spec requirement that padding removal validate the padding bytes. -/
theorem unpad_silently_truncates_inconsistent_padding :
    _unpad_data [65, 66, 67, 68, 2] = some [65, 66, 67] := by decide

/-- C6: Fernet decryption under the process master key of a Fernet encryption
under that same key recovers the original plaintext exactly
(`decrypt_data(encrypt_data(s)) == s`). -/
theorem decrypt_encrypt_round_trip (nonce : Nat) (p : Plain) :
    decrypt_data masterKey (encrypt_data masterKey nonce p) = some p := by
  simp [decrypt_data, encrypt_data]

/-- C2: `generate_tgt` returns the base64 encoding of the master-key encryption
of the TGT envelope, and that envelope has no `service_name`, carries the full
default permission list (the same for every principal — `generate_tgt` receives
only `user_id` and `username`, so the roles-derived set is this constant), the
freshly generated session key, and an `issued_at`/`expires_at` window of
exactly the TGT lifetime from `now`. -/
theorem generate_tgt_envelope (now : Int) (sk : String) (nonce : Nat)
    (user_id username : String) :
    generate_tgt now sk nonce user_id username =
      b64encode (encrypt_data masterKey nonce (json_dumps (tgt_data now sk user_id username))) ∧
    (tgt_data now sk user_id username).service_name = none ∧
    (tgt_data now sk user_id username).permissions = some default_permissions ∧
    (tgt_data now sk user_id username).session_key = some sk ∧
    (tgt_data now sk user_id username).user_id = some user_id ∧
    (tgt_data now sk user_id username).username = some username ∧
    (tgt_data now sk user_id username).issued_at = some (isoformat now) ∧
    (tgt_data now sk user_id username).expires_at = some (isoformat (now + tgt_lifetime)) :=
  ⟨rfl, rfl, rfl, rfl, rfl, rfl, rfl, rfl⟩

/-- C8: `validate_service_ticket` applied directly to a TGT (whose envelope has
no `service_name` field) still decrypts and evaluates expiry normally: any
freshly issued TGT validates as `true` at every time within its lifetime,
because validation checks only decryptability and expiry, never `service_name`. -/
theorem validate_accepts_unexpired_tgt (now : Int) (sk : String) (nonce : Nat)
    (user_id username : String) (t : Int) (h : t ≤ now + tgt_lifetime) :
    (tgt_data now sk user_id username).service_name = none ∧
    validate_service_ticket t (generate_tgt now sk nonce user_id username) = true := by
  refine ⟨rfl, ?_⟩
  have hexp : ¬ (now + tgt_lifetime < t) := by omega
  simp [validate_service_ticket, generate_tgt, decode_ticket, b64encode,
    b64decode_token, encrypt_data, decrypt_data, json_dumps, json_loads_ticket,
    tgt_data, isoformat, fromisoformat, hexp]

/-- Witness for C8: a TGT issued at time 0 with an 8-hour lifetime validates as
`true` one hour later. -/
theorem validate_accepts_unexpired_tgt_witness :
    (tgt_data 0 "sess" "1" "admin").service_name = none ∧
    validate_service_ticket 3600 (generate_tgt 0 "sess" 7 "1" "admin") = true := by
  have h := validate_accepts_unexpired_tgt 0 "sess" 7 "1" "admin" 3600 (by decide)
  exact ⟨h.1, h.2⟩

/-- Claim C1 exactly as the spec states it: `validate_service_ticket` returns
`false` whenever base64 decoding, decryption, or JSON decoding of the ticket
fails, or the decoded envelope's expiry satisfies `expiresAt <= now`, and
returns `true` otherwise. -/
def claim_C1 : Prop :=
  ∀ (now : Int) (t : TicketStr),
    validate_service_ticket now t = false ↔
      (decode_ticket t = none ∨ ∃ e, ticket_expiry t = some e ∧ e ≤ now)

/-- A well-formed TGT whose expiry timestamp is exactly 0: issued at
`-tgt_lifetime`, so `expires_at = 0`. -/
def boundary_ticket : TicketStr := generate_tgt (-tgt_lifetime) "sess" 0 "1" "admin"

/-- C1 (counterexample): at the boundary `expiresAt == now` the claim demands
`false`, but the code checks `datetime.now() > expires_at` strictly, so
`validate_service_ticket` returns `true` on a ticket expiring exactly at `now`. -/
theorem validate_boundary_refutes_claim : ¬ claim_C1 := by
  intro h
  have hexp : ticket_expiry boundary_ticket = some 0 := by decide
  have hfalse := (h 0 boundary_ticket).mpr (Or.inr ⟨0, hexp, le_refl 0⟩)
  have htrue : validate_service_ticket 0 boundary_ticket = true := by decide
  rw [hfalse] at htrue
  exact Bool.noConfusion htrue

/-- C1 (amended): `validate_service_ticket` returns `true` exactly when the
ticket decodes to an envelope with a parseable `expires_at` timestamp `e` and
`now ≤ e`; it returns `false` (letting no exception escape) on any base64,
decryption, or JSON failure, on a missing or unparsable `expires_at`, and when
`expiresAt < now` strictly. -/
theorem validate_true_iff_unexpired (now : Int) (t : TicketStr) :
    validate_service_ticket now t = true ↔
      ∃ e, ticket_expiry t = some e ∧ now ≤ e := by
  unfold validate_service_ticket ticket_expiry
  cases hd : decode_ticket t with
  | none => simp
  | some d =>
    cases he : d.expires_at with
    | none => simp [he]
    | some iso =>
      cases iso with
      | ofTime e0 =>
        simp only [he, fromisoformat]
        constructor
        · intro ht
          refine ⟨e0, rfl, ?_⟩
          by_contra hn
          rw [if_pos (by omega : e0 < now)] at ht
          exact Bool.noConfusion ht
        · rintro ⟨e, hee, hle⟩
          injection hee with h1
          rw [if_neg (by omega : ¬ e0 < now)]
      | invalid s => simp [he, fromisoformat]

/-- C4: for every decryptable, unexpired TGT whose envelope carries `user_id`,
`username` and `permissions`, the service ticket built by
`generate_service_ticket` copies those three fields verbatim (the permission
set in particular is inherited unmodified), sets the requested `service_name`,
the fresh session key, and a new `issued_at`/`expires_at` window of the
service-ticket lifetime. -/
theorem service_ticket_copies_tgt_fields (now : Int) (sk : String) (nonce : Nat)
    (tgt : TicketStr) (svc : String) (d : TicketData) (uid un : String)
    (ps : List String) (e : Int)
    (hdec : decode_ticket tgt = some d)
    (huid : d.user_id = some uid) (hun : d.username = some un)
    (hps : d.permissions = some ps)
    (hexp : d.expires_at = some (isoformat e)) (hnow : now ≤ e) :
    generate_service_ticket now sk nonce tgt svc =
      some (b64encode (encrypt_data masterKey nonce (json_dumps
        { user_id := some uid
          username := some un
          service_name := some svc
          issued_at := some (isoformat now)
          expires_at := some (isoformat (now + service_ticket_lifetime))
          session_key := some sk
          permissions := some ps }))) := by
  have hlt : ¬ e < now := by omega
  simp [generate_service_ticket, _validate_tgt, hdec, hexp, isoformat,
    fromisoformat, hlt, service_ticket_data, huid, hun, hps]

/-- Witness for C4: a service ticket issued at time 10 from a TGT issued at
time 0 copies the TGT's identity and permission fields exactly. -/
theorem service_ticket_copies_tgt_fields_witness :
    generate_service_ticket 10 "sk2" 9 (generate_tgt 0 "sk1" 5 "1" "admin")
        "reporting-api" =
      some (b64encode (encrypt_data masterKey 9 (json_dumps
        { user_id := some "1"
          username := some "admin"
          service_name := some "reporting-api"
          issued_at := some (isoformat 10)
          expires_at := some (isoformat (10 + service_ticket_lifetime))
          session_key := some "sk2"
          permissions := some default_permissions }))) :=
  service_ticket_copies_tgt_fields 10 "sk2" 9 (generate_tgt 0 "sk1" 5 "1" "admin")
    "reporting-api" (tgt_data 0 "sk1" "1" "admin") "1" "admin"
    default_permissions (0 + tgt_lifetime) rfl rfl rfl rfl rfl (by decide)

/-- C5: `authenticate_user` returns the same single failure value `none` whether
the credential-store lookup raises, the username is absent from the store, or
password verification fails — the returned signal does not distinguish the
three cases. -/
theorem authenticate_failure_uniform (lookup : String → LookupResult)
    (username password : String) (err : String) (u : User) :
    (lookup username = Except.error err →
       authenticate_user lookup username password = none) ∧
    (lookup username = Except.ok none →
       authenticate_user lookup username password = none) ∧
    (lookup username = Except.ok (some u) →
       _verify_password password u.password_hash = false →
       authenticate_user lookup username password = none) := by
  refine ⟨fun h => ?_, fun h => ?_, fun h hv => ?_⟩
  · simp [authenticate_user, h]
  · simp [authenticate_user, h]
  · simp [authenticate_user, h, hv]

/-- Witness for C5: a raising store, an absent user, and a wrong password on the
mock store all produce the identical failure value `none`. -/
theorem authenticate_failure_uniform_witness :
    authenticate_user (fun _ => Except.error "db down") "admin" "admin123" = none ∧
    authenticate_user (fun _ => Except.ok none) "admin" "admin123" = none ∧
    authenticate_user _get_user_by_username "admin" "wrong" = none := by
  refine ⟨?_, ?_, ?_⟩
  · exact (authenticate_failure_uniform (fun _ => Except.error "db down")
      "admin" "admin123" "db down" ⟨"1", "admin", bcrypt_hashpw "admin123" 1,
        ["admin", "user"]⟩).1 rfl
  · exact (authenticate_failure_uniform (fun _ => Except.ok none)
      "admin" "admin123" "db down" ⟨"1", "admin", bcrypt_hashpw "admin123" 1,
        ["admin", "user"]⟩).2.1 rfl
  · exact (authenticate_failure_uniform _get_user_by_username
      "admin" "wrong" "db down" ⟨"1", "admin", bcrypt_hashpw "admin123" 1,
        ["admin", "user"]⟩).2.2 rfl (by decide)

/-- C7: `get_ticket_info` returns `none` exactly when the decode pipeline
(base64, decryption, JSON) fails, and otherwise returns the read-only view
`{username, service_name, issued_at, expires_at, permissions}` of the decoded
envelope — with no expiry check, so the view is produced even for a ticket
whose `expires_at` is in the past. -/
theorem ticket_info_iff_decodes (t : TicketStr) :
    (get_ticket_info t = none ↔ decode_ticket t = none) ∧
    (∀ d, decode_ticket t = some d →
       get_ticket_info t = some ⟨d.username, d.service_name, d.issued_at,
         d.expires_at, d.permissions.getD []⟩) := by
  unfold get_ticket_info
  cases hd : decode_ticket t with
  | none => simp
  | some d => simp

/-- Witness for C7: a ticket already expired at time `-100` still yields its
full read-only view. -/
theorem ticket_info_iff_decodes_witness :
    get_ticket_info (TicketStr.ofToken ⟨masterKey, 3, Plain.ofTicket
      ⟨some "2", some "user", some "api", some (isoformat (-200)),
       some (isoformat (-100)), some "sess", some ["read"]⟩⟩) =
      some ⟨some "user", some "api", some (isoformat (-200)),
            some (isoformat (-100)), ["read"]⟩ :=
  (ticket_info_iff_decodes _).2
    ⟨some "2", some "user", some "api", some (isoformat (-200)),
     some (isoformat (-100)), some "sess", some ["read"]⟩ (by decide)

/-- C9: `verify_password` accepts exactly the password that was hashed (true for
the same `p`, false for any other); `hash_password` derives with
PBKDF2-SHA256, 100000 iterations and 32-byte output, and when no salt is
supplied it draws a fresh 32-byte random salt, so two no-salt calls with the
same password and distinct random salts produce different hashes. -/
theorem password_hash_verify (p q : String) (salt : List Nat)
    (seed seed1 seed2 : Nat) :
    verify_password p (hash_password p (some salt) seed).1 salt = true ∧
    (q ≠ p → verify_password q (hash_password p (some salt) seed).1 salt = false) ∧
    (hash_password p (some salt) seed).1 = pbkdf2_derive p salt 100000 32 ∧
    (hash_password p none seed).2 = token_bytes seed 32 ∧
    (hash_password p none seed).2.length = 32 ∧
    (token_bytes seed1 32 ≠ token_bytes seed2 32 →
       (hash_password p none seed1).1 ≠ (hash_password p none seed2).1) := by
  refine ⟨?_, fun hq => ?_, rfl, rfl, ?_, fun hne hEq => ?_⟩
  · simp [verify_password, hash_password, pbkdf2_derive]
  · simp [verify_password, hash_password, pbkdf2_derive, KdfHash.mk.injEq, hq]
  · simp [hash_password, token_bytes]
  · exact hne (congrArg KdfHash.salt hEq)

/-- Witness for C9: the hash of "a" under salt `[1]` verifies "a" and rejects
"b"; a no-salt hash draws a 32-byte salt, and seeds 0 and 1 give distinct
salts hence distinct hashes. -/
theorem password_hash_verify_witness :
    verify_password "a" (hash_password "a" (some [1]) 0).1 [1] = true ∧
    verify_password "b" (hash_password "a" (some [1]) 0).1 [1] = false ∧
    (hash_password "a" none 0).2.length = 32 ∧
    (hash_password "a" none 0).1 ≠ (hash_password "a" none 1).1 := by
  have h := password_hash_verify "a" "b" [1] 0 0 1
  exact ⟨h.1, h.2.1 (by decide), h.2.2.2.2.1, h.2.2.2.2.2 (by decide)⟩

end Kerberos
